import Mathlib

/-!
Shallow embedding of the K-Studio generation layer: the Gemini service
gateway (error translation, editImage request assembly, batch generation,
video polling) and the App orchestrator (field normalization for the
payment-QR flow, watermarking, the two-step pipeline, transformation-order
resolution, session reset and the video completion continuation).
Definitions are translated from the TypeScript source; external
collaborators (the remote model, JSON parsing of provider messages, the
watermark utilities, image resizing) appear as explicit parameters or
oracle inputs. JavaScript nullable strings are `Option String`; the JS
truthiness of strings (empty string falsy) is modelled explicitly.
-/

namespace KStudio

/-- Result record of one generation unit (the GeneratedContent type, as
used by App.tsx and the service layer). Every field is a nullable
string. -/
structure GeneratedContent where
  imageUrl : Option String := none
  text : Option String := none
  videoUrl : Option String := none
  originalImageUrl : Option String := none
  secondaryImageUrl : Option String := none
  deriving DecidableEq, Repr

/-- One inline payload handed to the gateway: base64 data plus MIME type.
The data is `Option String` so that the JS `undefined` produced by
splitting a comma-free data URL can be represented as `none`. -/
structure ImagePayload where
  base64 : Option String
  mimeType : String
  deriving DecidableEq, Repr

/-- One part of a generateContent request: inline image data or text. -/
inductive RequestPart where
  | inlineData (data : Option String) (mimeType : String)
  | text (s : String)
  deriving DecidableEq, Repr

/-- JS truthiness for `string | null` values: null and the empty string
are falsy, every other string is truthy. -/
def jsTruthy : Option String → Bool
  | none => false
  | some s => s != ""

/-- Structured provider error parsed out of an Error message (the
`parsedError.error` object inside handleApiError): optional status
string, numeric code and message. -/
structure ParsedApiError where
  status : Option String := none
  code : Option Nat := none
  message : Option String := none
  deriving DecidableEq, Repr

/-- A gateway failure as seen by handleApiError: either a JS Error
carrying its message string together with the structured provider error
successfully parsed from the first brace of that message (when that
parse succeeds and exposes an `error` object), or a non-Error throw.
JSON parsing itself is a platform collaborator; only its outcome enters
the model, as the `parsed` field. -/
inductive GatewayFailure where
  | errObject (message : String) (parsed : Option ParsedApiError)
  | nonError
  deriving DecidableEq, Repr

/-- User-facing throttling message for the rate-limit condition. -/
def rateLimitMessage : String :=
  "You\u0027ve likely exceeded the request limit. Please wait a moment before trying again."

/-- User-facing transient-retry message for the server-error condition. -/
def serverErrorMessage : String :=
  "An unexpected server error occurred. This might be a temporary issue. Please try again in a few moments."

/-- Generic fallback message for non-Error failures. -/
def unknownApiMessage : String :=
  "An unknown error occurred while communicating with the API."

/-- Error translator (handleApiError of the service module): maps every
gateway failure to the user-facing message it is rejected with. The
inner message check mirrors the JS truthiness test on
`parsedError.error.message`. -/
def handleApiError : GatewayFailure → String
  | .nonError => unknownApiMessage
  | .errObject message parsed =>
    match parsed with
    | none => message
    | some p =>
      match p.message with
      | none => message
      | some m =>
        if m = "" then message
        else if p.status = some "RESOURCE_EXHAUSTED" then rateLimitMessage
        else if p.code = some 500 ∨ p.status = some "UNKNOWN" then serverErrorMessage
        else m

/-- Masked-area wrapper applied to the prompt when a mask is supplied. -/
def wrapMaskPrompt (prompt : String) : String :=
  "Apply the following instruction only to the masked area of the image: \"" ++ prompt
    ++ "\". Preserve the unmasked area."

/-- Request part assembly performed by editImage: the primary image first,
then the mask (when truthy) with the fixed image/png MIME type, then the
remaining images in input order, then the text instruction last; a
truthy mask also wraps the prompt in the masked-area instruction. An
empty-string mask is falsy in JS and is treated exactly like null. -/
def buildEditImageParts (prompt : String) (imageParts : List ImagePayload)
    (maskBase64 : Option String) : List RequestPart :=
  let fullPrompt := if jsTruthy maskBase64 then wrapMaskPrompt prompt else prompt
  let firstPart : List RequestPart :=
    match imageParts with
    | [] => []
    | first :: _ => [RequestPart.inlineData first.base64 first.mimeType]
  let withMask :=
    if jsTruthy maskBase64 then firstPart ++ [RequestPart.inlineData maskBase64 "image/png"]
    else firstPart
  let remaining := (imageParts.drop 1).map fun p => RequestPart.inlineData p.base64 p.mimeType
  withMask ++ remaining ++ [RequestPart.text fullPrompt]

/-- Promise.all over a list of settled sub-call outcomes: it rejects with
a sub-call rejection as soon as one exists (modelled as the first one in
list order; which rejection wins depends on completion timing, but
whether the batch rejects does not), otherwise it resolves with all
values. -/
def jsPromiseAll {α : Type} : List (Except String α) → Except String (List α)
  | [] => .ok []
  | .error e :: _ => .error e
  | .ok a :: rest =>
    match jsPromiseAll rest with
    | .error e => .error e
    | .ok others => .ok (a :: others)

/-- generateImageEditsBatch: four concurrent editImage sub-calls are
awaited with Promise.all; the resolved contents are filtered for their
image URLs and an error is raised when none remain. `subCalls` lists the
sub-call outcomes (four of them in the App flow). The outer catch
re-throws the caught message unchanged. -/
def generateImageEditsBatch (subCalls : List (Except String GeneratedContent)) :
    Except String (List String) :=
  match jsPromiseAll subCalls with
  | .error e => .error e
  | .ok results =>
    let imageUrls := results.filterMap fun r => r.imageUrl
    if imageUrls.isEmpty then
      .error "Failed to generate any image variations. The model may have refused the request."
    else .ok imageUrls

/-- generateLookbook: numImages concurrent editImage sub-calls awaited
with Promise.all, then the same image-URL filtering; only the
zero-image error message differs (the under-count console warning has no
semantic effect). -/
def generateLookbook (subCalls : List (Except String GeneratedContent)) :
    Except String (List String) :=
  match jsPromiseAll subCalls with
  | .error e => .error e
  | .ok results =>
    let imageUrls := results.filterMap fun r => r.imageUrl
    if imageUrls.isEmpty then
      .error "Failed to generate any images for the lookbook. The model may have refused the request."
    else .ok imageUrls

/-- Snapshot of the long-running video operation as returned by the
provider: the done flag, the error object when present (carrying its
message field when that field is a string), and the download URI when
present. -/
structure VideoOperation where
  done : Bool
  error : Option (Option String) := none
  uri : Option String := none
  deriving DecidableEq, Repr

/-- Fixed poll interval of the video loop, in milliseconds. -/
def pollIntervalMs : Nat := 10000

/-- Poll loop of generateVideo: starting from the initial operation, the
loop waits one fixed interval and re-fetches the operation while it is
not done. `polls` is the stream of successive operation snapshots; the
result is the first snapshot whose done flag is set, together with the
number of waits performed, or none when the stream is exhausted before
completion (a run that never finishes). -/
def pollLoop (op : VideoOperation) : List VideoOperation → Option (VideoOperation × Nat)
  | [] => if op.done then some (op, 0) else none
  | next :: rest =>
    if op.done then some (op, 0)
    else
      match pollLoop next rest with
      | some (finalOp, n) => some (finalOp, n + 1)
      | none => none

/-- Error message raised when the completed operation carries an error
object: its message when that is a non-empty string, otherwise the
fixed fallback text. -/
def videoErrMsg : Option String → String
  | some m => if m = "" then "Video generation failed during operation." else m
  | none => "Video generation failed during operation."

/-- generateVideo after job submission: poll until done, then fail when
the final operation reports an error, fail when no download link is
present, and otherwise return the download URI with the literal key
query suffix and the API key appended. The outer `none` models a poll
stream that never reports completion. -/
def generateVideo (apiKey : String) (initial : VideoOperation)
    (polls : List VideoOperation) : Option (Except String String × Nat) :=
  match pollLoop initial polls with
  | none => none
  | some (finalOp, waits) =>
    match finalOp.error with
    | some errObj => some (.error (videoErrMsg errObj), waits)
    | none =>
      match finalOp.uri with
      | none => some (.error "Video generation completed, but no download link was found.", waits)
      | some link => some (.ok (link ++ "&key=" ++ apiKey), waits)

/-- Catalog entry: key plus prompt template (none models an absent prompt;
the CUSTOM sentinel is an ordinary string value). The remaining
descriptor fields are not needed by the verified claims. -/
structure Transformation where
  key : String
  prompt : Option String := none
  deriving DecidableEq, Repr

/-- The JS Map built from catalog entries keyed by `key` (later duplicate
keys overwrite earlier ones), queried with get. -/
def transformationMapGet (catalog : List Transformation) (k : String) : Option Transformation :=
  catalog.reverse.find? fun t => t.key == k

/-- Display-order resolution performed by the transformations useState
initializer when a saved order exists: saved keys are looked up in the
catalog map (unknown keys drop out), then every catalog entry whose key
is not in the saved order is appended in catalog order. -/
def resolveTransformationOrder (orderedKeys : List String)
    (catalog : List Transformation) : List Transformation :=
  let orderedTransformations := orderedKeys.filterMap (transformationMapGet catalog)
  let newTransformations := catalog.filter fun t => !(orderedKeys.contains t.key)
  orderedTransformations ++ newTransformations

/-- Uppercase map of the JS toUpperCase built-in, on the alphabet used in
this development: ASCII letters plus the Vietnamese precomposed letters
occurring in the verified inputs; every other character is unchanged. -/
def charUpper (c : Char) : Char :=
  if c = 'đ' then 'Đ'
  else if c = 'ă' then 'Ă'
  else if c = 'ễ' then 'Ễ'
  else if c = 'ứ' then 'Ứ'
  else c.toUpper

/-- Canonical NFD decomposition of the JS normalize built-in, on the same
alphabet: precomposed Vietnamese uppercase letters decompose into a base
letter followed by combining marks (the uppercase D with stroke does not
decompose); every other character maps to itself. -/
def charNFD (c : Char) : List Char :=
  if c = 'Ă' then ['A', Char.ofNat 0x306]
  else if c = 'Ễ' then ['E', Char.ofNat 0x302, Char.ofNat 0x303]
  else if c = 'Ứ' then ['U', Char.ofNat 0x31B, Char.ofNat 0x301]
  else [c]

/-- Combining-mark test for the regex range U+0300 to U+036F. -/
def isCombiningMark (c : Char) : Bool :=
  decide (0x300 ≤ c.toNat ∧ c.toNat ≤ 0x36F)

/-- Normalization applied to payment-QR field values (formatBankText):
uppercase, NFD decomposition, stripping of combining marks, and
transliteration of the Vietnamese uppercase D with stroke to plain D. -/
def formatBankText (s : String) : String :=
  let upper := s.toList.map charUpper
  let decomposed := (upper.map charNFD).flatten
  let stripped := decomposed.filter fun c => !(isCombiningMark c)
  String.mk (stripped.map fun c => if c = 'Đ' then 'D' else c)

/-- Prefix test on character lists. -/
def leadsWith : List Char → List Char → Bool
  | [], _ => true
  | _ :: _, [] => false
  | p :: ps, c :: cs => p == c && leadsWith ps cs

/-- First-occurrence replacement on character lists. The JS String.replace
with a string pattern replaces only the first match; the dollar escape
sequences of the JS replacement argument are not modelled (no template
or field value used here contains a dollar sign). -/
def replaceFirstList (pat repl : List Char) : List Char → List Char
  | [] => if pat.isEmpty then repl else []
  | c :: cs =>
    if leadsWith pat (c :: cs) then repl ++ (c :: cs).drop pat.length
    else c :: replaceFirstList pat repl cs

/-- JS String.replace with a string pattern: replace the first occurrence
only. -/
def jsReplaceFirst (s pat repl : String) : String :=
  String.mk (replaceFirstList pat.toList repl.toList s.toList)

/-- Placeholder token for the bank name in the chibiQrCode template. -/
def bankNameToken : String := "\x7b\x7bbankName\x7d\x7d"

/-- Placeholder token for the account name in the chibiQrCode template. -/
def accountNameToken : String := "\x7b\x7baccountName\x7d\x7d"

/-- Placeholder token for the account number in the chibiQrCode template. -/
def accountNumberToken : String := "\x7b\x7baccountNumber\x7d\x7d"

/-- Placeholder token for the branch in the chibiQrCode template. -/
def branchToken : String := "\x7b\x7bbranch\x7d\x7d"

/-- Prompt built by the chibiQrCode branch of handleGenerateImage: the
bank name, account name and branch values are passed through
formatBankText, the account number is substituted as typed. -/
def chibiBuildPrompt (template bankName accountName accountNumber branch : String) : String :=
  jsReplaceFirst
    (jsReplaceFirst
      (jsReplaceFirst
        (jsReplaceFirst template bankNameToken (formatBankText bankName))
        accountNameToken (formatBankText accountName))
      accountNumberToken accountNumber)
    branchToken (formatBankText branch)

/-- Prompt the claim describes, with every one of the four field values
normalized. Modelled from the spec wording, for comparison with
chibiBuildPrompt. -/
def chibiPromptClaimed (template bankName accountName accountNumber branch : String) : String :=
  jsReplaceFirst
    (jsReplaceFirst
      (jsReplaceFirst
        (jsReplaceFirst template bankNameToken (formatBankText bankName))
        accountNameToken (formatBankText accountName))
      accountNumberToken (formatBankText accountNumber))
    branchToken (formatBankText branch)

/-- MIME extraction from a data URL: the first semicolon segment, then the
piece after the colon, defaulting to image/png. -/
def dataUrlMime (url : String) : String :=
  (((url.splitOn ";").headD "").splitOn ":").getD 1 "image/png"

/-- Base64 payload extraction from a data URL: the segment after the first
comma; none models the JS undefined produced when no comma exists. -/
def dataUrlData (url : String) : Option String :=
  (url.splitOn ",")[1]?

/-- Payload the App builds from a data URL. -/
def payloadOfDataUrl (url : String) : ImagePayload :=
  { base64 := dataUrlData url, mimeType := dataUrlMime url }

/-- The single editImage call issued by the chibiQrCode branch: the
substituted prompt, the primary and secondary payloads, and a null
mask. -/
structure ChibiCall where
  prompt : String
  images : List ImagePayload
  mask : Option String
  deriving DecidableEq, Repr

/-- chibiQrCode branch of handleGenerateImage, after its validation gate:
the request of the one editImage call it issues. -/
def chibiEditCall (template bankName accountName accountNumber branch : String)
    (primaryUrl secondaryUrl : String) : ChibiCall :=
  { prompt := chibiBuildPrompt template bankName accountName accountNumber branch,
    images := [payloadOfDataUrl primaryUrl, payloadOfDataUrl secondaryUrl],
    mask := none }

/-- Signature text embedded by both watermark stages. -/
def watermarkSignature : String := "X STUDIO - Tiệm ảnh tương lai"

/-- Watermarking of one truthy image URL: invisible embed then visible
overlay, both with the fixed signature; a failure of either stage
degrades to the original input. The two stages are external
collaborators passed as fallible functions. -/
def applyWatermarksSome (wmEmbed wmVisible : String → String → Except String String)
    (imageUrl : String) : String :=
  match wmEmbed imageUrl watermarkSignature with
  | .error _ => imageUrl
  | .ok invisiblyWatermarked =>
    match wmVisible invisiblyWatermarked watermarkSignature with
    | .error _ => imageUrl
    | .ok visiblyWatermarked => visiblyWatermarked

/-- applyWatermarks of App.tsx: a falsy input (null, and likewise the
empty string) passes through as null; any other image URL is
watermarked with graceful degradation and never fails outward. -/
def applyWatermarks (wmEmbed wmVisible : String → String → Except String String) :
    Option String → Option String
  | none => none
  | some imageUrl =>
    if imageUrl = "" then none
    else some (applyWatermarksSome wmEmbed wmVisible imageUrl)

/-- Error thrown by the two-step branch when step 1 yields no image. -/
def stepOneFailMessage : String := "Step 1 (line art) failed to generate an image."

/-- Outcome of one run of the two-step branch, instrumented with how
often each of its two editImage call sites was actually invoked. -/
structure TwoStepRun where
  result : Except String GeneratedContent
  stepOneCalls : Nat
  stepTwoCalls : Nat
  deriving Repr

/-- Two-step compositing branch of handleGenerateImage. `step1` and
`step2` are the outcomes the gateway would return for the first and the
second editImage call; the counters record which of the calls were
actually issued. The falsy-image check on the step-1 result mirrors the
JS truthiness test; the secondary image is resized by the external
resize collaborator before step 2, and both step results are
watermarked. -/
def runTwoStep (_promptArg _stepTwoPromptArg : String)
    (primaryImageUrl secondaryImageUrl : Option String)
    (step1 step2 : Except String GeneratedContent)
    (wmEmbed wmVisible : String → String → Except String String)
    (resize : String → String) : TwoStepRun :=
  match primaryImageUrl, secondaryImageUrl with
  | some pUrl, some sUrl =>
    (match step1 with
     | .error e => ⟨.error e, 1, 0⟩
     | .ok r1 =>
       match r1.imageUrl with
       | none => ⟨.error stepOneFailMessage, 1, 0⟩
       | some img1 =>
         if img1 = "" then ⟨.error stepOneFailMessage, 1, 0⟩
         else
           let w1 := applyWatermarksSome wmEmbed wmVisible img1
           let _stepTwoImages := [payloadOfDataUrl w1, payloadOfDataUrl (resize sUrl)]
           match step2 with
           | .error e => ⟨.error e, 1, 1⟩
           | .ok r2 =>
             ⟨.ok { r2 with
                      imageUrl := applyWatermarks wmEmbed wmVisible r2.imageUrl,
                      secondaryImageUrl := some w1,
                      originalImageUrl := some pUrl },
              1, 1⟩)
  | _, _ => ⟨.error "app.error.uploadBoth", 0, 0⟩

/-- UI state of the App component: the useState cells touched by the
reset and video flows, with their initial values as defaults. The
source fields named aspectRatio, imageAspectRatio and
lookbookAspectRatio appear here as aspect, imageAspect and
lookbookAspect. -/
structure AppState where
  selectedTransformation : Option Transformation := none
  primaryImageUrl : Option String := none
  primaryFile : Option String := none
  secondaryImageUrl : Option String := none
  secondaryFile : Option String := none
  multiImageUrls : List String := []
  generatedContent : Option GeneratedContent := none
  isLoading : Bool := false
  loadingMessage : String := ""
  error : Option String := none
  maskDataUrl : Option String := none
  previewImageUrl : Option String := none
  customPrompt : String := ""
  aspect : String := "16:9"
  imageAspect : String := "1:1"
  activeTool : String := "none"
  history : List GeneratedContent := []
  isHistoryPanelOpen : Bool := false
  activeCategory : Option Transformation := none
  imageOptions : Option (List String) := none
  selectedOption : Option String := none
  generatedLookbookImages : List String := []
  bankName : String := ""
  accountName : String := ""
  accountNumber : String := ""
  branch : String := ""
  lookbookMode : String := "lookbook"
  askAiPrompt : String := ""
  lookbookDescription : String := ""
  numImages : Nat := 4
  lookbookAspect : String := "3:4"
  outputQuality : String := "ultra"
  deriving Repr

/-- handleResetApp: exactly the set of state cells the reset handler
writes; history, loadingMessage, the history-panel flag, the preview
URL and the aspect selections are left untouched. -/
def handleResetApp (s : AppState) : AppState :=
  { s with
    selectedTransformation := none,
    primaryImageUrl := none,
    primaryFile := none,
    secondaryImageUrl := none,
    secondaryFile := none,
    multiImageUrls := [],
    generatedContent := none,
    generatedLookbookImages := [],
    error := none,
    isLoading := false,
    maskDataUrl := none,
    customPrompt := "",
    activeTool := "none",
    activeCategory := none,
    imageOptions := none,
    selectedOption := none,
    bankName := "",
    accountName := "",
    accountNumber := "",
    branch := "",
    lookbookMode := "lookbook",
    askAiPrompt := "",
    lookbookDescription := "",
    numImages := 4,
    lookbookAspect := "3:4",
    outputQuality := "ultra" }

/-- Completion continuation of the video flow (the success path of
handleGenerateVideo): build the result record with the original image
URL captured by the closure, set it as the current content, prepend it
to the current history, and clear the loading state. It runs against
whatever state is current when the poll loop finally returns; nothing
guards against the state having been reset in the meantime. -/
def applyVideoSuccess (s : AppState) (objectUrl : String)
    (capturedOriginal : Option String) : AppState :=
  let result : GeneratedContent :=
    { imageUrl := none, text := none, videoUrl := some objectUrl,
      originalImageUrl := capturedOriginal, secondaryImageUrl := none }
  { s with
    generatedContent := some result,
    history := result :: s.history,
    isLoading := false,
    loadingMessage := "" }

/-- Sub-call outcome resolving with an image URL. -/
def okImage (u : String) : Except String GeneratedContent :=
  .ok { imageUrl := some u }

/-- Claim C1, refuted by the code: one rejected editImage sub-call makes
Promise.all reject, so generateImageEditsBatch and generateLookbook
fail with that sub-call error even though the remaining sub-calls
produced images; the claimed partial-failure tolerance (fail only when
all sub-calls fail) does not hold. The last conjunct records that three
of the four sub-calls of the first run did produce image URLs. -/
theorem c1_batch_rejects_on_single_failure :
    generateImageEditsBatch
        [.error "sub-call failed", okImage "u1", okImage "u2", okImage "u3"]
      = .error "sub-call failed"
  ∧ generateLookbook [.error "sub-call failed", okImage "u1", okImage "u2"]
      = .error "sub-call failed"
  ∧ ([Except.error "sub-call failed", okImage "u1", okImage "u2", okImage "u3"].filterMap
        fun r => match r with | .ok c => c.imageUrl | .error _ => none)
      = ["u1", "u2", "u3"] :=
  ⟨rfl, rfl, rfl⟩

/-- Claim C2, counterexample: with the prompt template reduced to the
account-number placeholder and an account-number value the
normalization would change (a lowercase letter), the issued prompt
keeps the raw value while the fully-normalized prompt of the claim
differs, so not every substituted field value passes through the
normalization function. -/
theorem c2_account_number_not_normalized_cex :
    (chibiEditCall accountNumberToken "Vietcombank" "Nguyen Van A" "a" "PGD Binh Tan"
        "data:image/png;base64,AA" "data:image/png;base64,BB").prompt = "a"
  ∧ chibiPromptClaimed accountNumberToken "Vietcombank" "Nguyen Van A" "a" "PGD Binh Tan" = "A"
  ∧ ("a" : String) ≠ "A" :=
  ⟨by decide, by decide, by decide⟩

/-- Claim C2, amended: in the chibiQrCode pipeline the bank name, account
name and branch are normalized through formatBankText before
substitution, the single editImage call receives exactly the primary
and secondary payloads with no mask, and the issued prompt agrees with
the fully-normalized prompt of the claim exactly when the account
number is already a fixed point of the normalization, as every plain
digit string is. -/
theorem c2_chibi_normalization (template bankName accountName accountNumber branch
    primaryUrl secondaryUrl : String)
    (h : formatBankText accountNumber = accountNumber) :
    (chibiEditCall template bankName accountName accountNumber branch
        primaryUrl secondaryUrl).prompt
      = chibiPromptClaimed template bankName accountName accountNumber branch
  ∧ (chibiEditCall template bankName accountName accountNumber branch
        primaryUrl secondaryUrl).images
      = [payloadOfDataUrl primaryUrl, payloadOfDataUrl secondaryUrl]
  ∧ (chibiEditCall template bankName accountName accountNumber branch
        primaryUrl secondaryUrl).mask = none := by
  refine ⟨?_, rfl, rfl⟩
  simp only [chibiEditCall, chibiBuildPrompt, chibiPromptClaimed, h]

/-- Witness for c2_chibi_normalization at a digit-string account number. -/
theorem c2_chibi_normalization_witness :
    formatBankText "0123456789" = "0123456789"
  ∧ (chibiEditCall accountNumberToken "Vietcombank" "Nguyen Van A" "0123456789"
        "PGD Binh Tan" "data:image/png;base64,AA" "data:image/png;base64,BB").prompt
      = chibiPromptClaimed accountNumberToken "Vietcombank" "Nguyen Van A" "0123456789"
          "PGD Binh Tan" :=
  ⟨by decide, (c2_chibi_normalization accountNumberToken "Vietcombank" "Nguyen Van A"
      "0123456789" "PGD Binh Tan" "data:image/png;base64,AA" "data:image/png;base64,BB"
      (by decide)).1⟩

/-- Claim C3, counterexample: starting from a busy video-generation state,
resetting the session and then letting the in-flight poll complete
applies the late result to the reset state — the poll is not cancelled
and the superseded UI state receives the video. -/
theorem c3_late_result_applied_cex :
    ((applyVideoSuccess (handleResetApp
          { selectedTransformation := some { key := "customPrompt", prompt := some "CUSTOM" },
            primaryImageUrl := some "data:image/png;base64,OLD",
            isLoading := true,
            loadingMessage := "Polling for results, this may take a few minutes..." })
        "blob:late-video" (some "data:image/png;base64,OLD")).generatedContent
      = some { imageUrl := none, text := none, videoUrl := some "blob:late-video",
               originalImageUrl := some "data:image/png;base64,OLD",
               secondaryImageUrl := none })
  ∧ (handleResetApp
        { selectedTransformation := some { key := "customPrompt", prompt := some "CUSTOM" },
          primaryImageUrl := some "data:image/png;base64,OLD",
          isLoading := true,
          loadingMessage := "Polling for results, this may take a few minutes..." }).selectedTransformation
      = none :=
  ⟨rfl, rfl⟩

/-- Claim C3, amended: the poll loop has no cancellation hook; a session
reset neither aborts nor masks an in-flight video generation, so a
result arriving after handleResetApp is written unconditionally into
the reset state: generatedContent is set to the late video record and
the history (which the reset never clears) is prepended with it, even
though the reset had cleared the current content and selection. -/
theorem c3_no_cancellation (s : AppState) (url : String) (orig : Option String) :
    (applyVideoSuccess (handleResetApp s) url orig).generatedContent
      = some { imageUrl := none, text := none, videoUrl := some url,
               originalImageUrl := orig, secondaryImageUrl := none }
  ∧ (applyVideoSuccess (handleResetApp s) url orig).history
      = { imageUrl := none, text := none, videoUrl := some url,
          originalImageUrl := orig, secondaryImageUrl := none } :: s.history
  ∧ (handleResetApp s).generatedContent = none
  ∧ (handleResetApp s).selectedTransformation = none :=
  ⟨rfl, rfl, rfl, rfl⟩

/-- Claim C4, counterexample: a non-null empty-string mask is falsy in JS,
so editImage builds the maskless part sequence with the unwrapped
prompt, not the claimed image-mask-text sequence with the wrapped
prompt. -/
theorem c4_empty_mask_cex :
    buildEditImageParts "p" [{ base64 := some "AA", mimeType := "image/png" }] (some "")
      = [RequestPart.inlineData (some "AA") "image/png", RequestPart.text "p"]
  ∧ buildEditImageParts "p" [{ base64 := some "AA", mimeType := "image/png" }] (some "")
      ≠ [RequestPart.inlineData (some "AA") "image/png",
         RequestPart.inlineData (some "") "image/png",
         RequestPart.text (wrapMaskPrompt "p")] :=
  ⟨rfl, by decide⟩

/-- Claim C4, amended: for a call with at least one image, a truthy
(non-null, non-empty) mask yields exactly the primary image, the mask,
the remaining images in input order and then the masked-area-wrapped
prompt text last, while a null mask — and likewise a non-null
empty-string mask, which is falsy in JS — yields the primary image, the
remaining images and the unwrapped prompt text. -/
theorem c4_edit_image_part_order (prompt : String) (first : ImagePayload)
    (rest : List ImagePayload) (m : String) (hm : m ≠ "") :
    buildEditImageParts prompt (first :: rest) (some m)
      = RequestPart.inlineData first.base64 first.mimeType
          :: RequestPart.inlineData (some m) "image/png"
          :: ((rest.map fun p => RequestPart.inlineData p.base64 p.mimeType)
              ++ [RequestPart.text (wrapMaskPrompt prompt)])
  ∧ buildEditImageParts prompt (first :: rest) none
      = RequestPart.inlineData first.base64 first.mimeType
          :: ((rest.map fun p => RequestPart.inlineData p.base64 p.mimeType)
              ++ [RequestPart.text prompt])
  ∧ buildEditImageParts prompt (first :: rest) (some "")
      = buildEditImageParts prompt (first :: rest) none := by
  have hb : (m != "") = true := by
    simpa using hm
  refine ⟨?_, ?_, ?_⟩ <;> simp [buildEditImageParts, jsTruthy, hb]

/-- Witness for c4_edit_image_part_order at a concrete truthy mask. -/
theorem c4_edit_image_part_order_witness :
    buildEditImageParts "p" [{ base64 := some "AA", mimeType := "image/png" }] (some "MM")
      = [RequestPart.inlineData (some "AA") "image/png",
         RequestPart.inlineData (some "MM") "image/png",
         RequestPart.text (wrapMaskPrompt "p")] :=
  (c4_edit_image_part_order "p" { base64 := some "AA", mimeType := "image/png" } [] "MM"
    (by decide)).1

/-- Claim C5, counterexample: a structured 503 UNAVAILABLE failure is a
5xx server condition, yet the translator surfaces the provider message
verbatim rather than the transient retry-suggested message, because
only the exact code 500 (or status UNKNOWN) is recognized; and an Error
whose message does not parse as a structured provider error keeps its
original message rather than the generic fallback, which is reserved
for non-Error failures. -/
theorem c5_error_translator_cex :
    handleApiError (.errObject "orig"
        (some { status := some "UNAVAILABLE", code := some 503,
                message := some "The service is currently unavailable." }))
      = "The service is currently unavailable."
  ∧ "The service is currently unavailable." ≠ serverErrorMessage
  ∧ handleApiError (.errObject "Network timeout" none) = "Network timeout"
  ∧ "Network timeout" ≠ unknownApiMessage :=
  ⟨by decide, by decide, rfl, by decide⟩

/-- Claim C5, amended: every gateway failure passes through the one
translator, which maps a structured RESOURCE_EXHAUSTED condition to the
throttling message; produces the transient retry-suggested message
exactly for structured code 500 or status UNKNOWN (other 5xx codes fall
through to the verbatim clause); surfaces any other structured error
message verbatim; keeps the original Error message when no structured
provider error can be parsed from it (or its message field is absent or
empty); and produces the generic fallback exactly for non-Error
failures. -/
theorem c5_error_translator (original : String) (p : ParsedApiError) (m : String) :
    (p.message = some m → m ≠ "" → p.status = some "RESOURCE_EXHAUSTED" →
        handleApiError (.errObject original (some p)) = rateLimitMessage)
  ∧ (p.message = some m → m ≠ "" → p.status ≠ some "RESOURCE_EXHAUSTED" →
        (p.code = some 500 ∨ p.status = some "UNKNOWN") →
        handleApiError (.errObject original (some p)) = serverErrorMessage)
  ∧ (p.message = some m → m ≠ "" → p.status ≠ some "RESOURCE_EXHAUSTED" →
        p.code ≠ some 500 → p.status ≠ some "UNKNOWN" →
        handleApiError (.errObject original (some p)) = m)
  ∧ (p.message = none → handleApiError (.errObject original (some p)) = original)
  ∧ (p.message = some "" → handleApiError (.errObject original (some p)) = original)
  ∧ handleApiError (.errObject original none) = original
  ∧ handleApiError .nonError = unknownApiMessage := by
  refine ⟨?_, ?_, ?_, ?_, ?_, rfl, rfl⟩
  · intro h1 h2 h3
    simp [handleApiError, h1, h2, h3]
  · intro h1 h2 h3 h4
    simp [handleApiError, h1, h2, h3, h4]
  · intro h1 h2 h3 h4 h5
    simp [handleApiError, h1, h2, h3, h4, h5]
  · intro h1
    simp [handleApiError, h1]
  · intro h1
    simp [handleApiError, h1]

/-- Witness for c5_error_translator at a concrete structured rate-limit
failure. -/
theorem c5_error_translator_witness :
    handleApiError (.errObject "orig"
        (some { status := some "RESOURCE_EXHAUSTED", code := some 429,
                message := some "Quota exceeded" }))
      = rateLimitMessage :=
  (c5_error_translator "orig"
      { status := some "RESOURCE_EXHAUSTED", code := some 429,
        message := some "Quota exceeded" }
      "Quota exceeded").1 rfl (by decide) rfl

/-- Claim C6, counterexample: the empty string is a non-null input, but
the JS truthiness guard treats it like null — apply returns null
instead of the (watermarked) original, even though neither stage
throws. -/
theorem c6_empty_url_cex :
    applyWatermarks (fun s _ => Except.ok s) (fun s _ => Except.ok s) (some "") = none
  ∧ (none : Option String) ≠ some "" :=
  ⟨rfl, by decide⟩

/-- Claim C6, amended: for every non-null, non-empty input image URL the
pipeline never fails outward — a failure of either watermark stage
degrades to the original input unchanged, success of both stages
yields the doubly watermarked image, and the result is always a
non-null image; an empty-string input is falsy in JS and
short-circuits to null exactly like a null input. -/
theorem c6_watermark_never_fails
    (wmEmbed wmVisible : String → String → Except String String) (url : String)
    (hurl : url ≠ "") :
    (∀ msg, wmEmbed url watermarkSignature = .error msg →
        applyWatermarks wmEmbed wmVisible (some url) = some url)
  ∧ (∀ inv msg, wmEmbed url watermarkSignature = .ok inv →
        wmVisible inv watermarkSignature = .error msg →
        applyWatermarks wmEmbed wmVisible (some url) = some url)
  ∧ (∀ inv vis, wmEmbed url watermarkSignature = .ok inv →
        wmVisible inv watermarkSignature = .ok vis →
        applyWatermarks wmEmbed wmVisible (some url) = some vis)
  ∧ (∃ out, applyWatermarks wmEmbed wmVisible (some url) = some out) := by
  have h0 : applyWatermarks wmEmbed wmVisible (some url)
      = some (applyWatermarksSome wmEmbed wmVisible url) := by
    simp [applyWatermarks, hurl]
  refine ⟨?_, ?_, ?_, ⟨_, h0⟩⟩
  · intro msg hE
    rw [h0]
    simp [applyWatermarksSome, hE]
  · intro inv msg hE hV
    rw [h0]
    simp [applyWatermarksSome, hE, hV]
  · intro inv vis hE hV
    rw [h0]
    simp [applyWatermarksSome, hE, hV]

/-- Witness for c6_watermark_never_fails with a throwing invisible
stage. -/
theorem c6_watermark_never_fails_witness :
    applyWatermarks (fun _ _ => Except.error "stage failure") (fun s _ => Except.ok s)
        (some "data:image/png;base64,AA")
      = some "data:image/png;base64,AA" :=
  (c6_watermark_never_fails (fun _ _ => Except.error "stage failure")
      (fun s _ => Except.ok s) "data:image/png;base64,AA" (by decide)).1
    "stage failure" rfl

/-- Claim C7: in the two-step pipeline a step-1 call that produces no
image (a rejection, or a resolved result whose image URL is null — or
the falsy empty string) makes the whole run fail and the step-2
editImage call is never issued (its call count is zero); conversely,
step 2 is issued only when step 1 resolved with a truthy image URL. -/
theorem c7_two_step_gating (promptArg stepTwoPromptArg : String) (pUrl sUrl : String)
    (step1 step2 : Except String GeneratedContent)
    (wmEmbed wmVisible : String → String → Except String String)
    (resize : String → String) :
    (((∃ msg, step1 = .error msg) ∨ (∃ r, step1 = .ok r ∧ jsTruthy r.imageUrl = false)) →
        (runTwoStep promptArg stepTwoPromptArg (some pUrl) (some sUrl) step1 step2
            wmEmbed wmVisible resize).stepTwoCalls = 0
      ∧ ∃ msg, (runTwoStep promptArg stepTwoPromptArg (some pUrl) (some sUrl) step1 step2
            wmEmbed wmVisible resize).result = .error msg)
  ∧ ((runTwoStep promptArg stepTwoPromptArg (some pUrl) (some sUrl) step1 step2
          wmEmbed wmVisible resize).stepTwoCalls = 1 →
        ∃ r img, step1 = .ok r ∧ r.imageUrl = some img ∧ img ≠ "") := by
  constructor
  · rintro (⟨msg, hmsg⟩ | ⟨r, hr, himg⟩)
    · subst hmsg
      exact ⟨rfl, msg, rfl⟩
    · subst hr
      rcases hru : r.imageUrl with _ | img
      · refine ⟨?_, stepOneFailMessage, ?_⟩ <;> simp [runTwoStep, hru]
      · have himg2 : img = "" := by
          rw [hru] at himg
          simpa [jsTruthy] using himg
        subst himg2
        refine ⟨?_, stepOneFailMessage, ?_⟩ <;> simp [runTwoStep, hru]
  · intro hcount
    cases step1 with
    | error e =>
      simp [runTwoStep] at hcount
    | ok r =>
      rcases hru : r.imageUrl with _ | img
      · simp [runTwoStep, hru] at hcount
      · by_cases himg : img = ""
        · subst himg
          simp [runTwoStep, hru] at hcount
        · exact ⟨r, img, rfl, hru, himg⟩

/-- Witness for c7_two_step_gating with a rejected step 1. -/
theorem c7_two_step_gating_witness :
    (runTwoStep "step one prompt" "step two prompt" (some "data:p") (some "data:s")
        (Except.error "step one rejected") (Except.ok { imageUrl := some "u" })
        (fun s _ => Except.ok s) (fun s _ => Except.ok s) id).stepTwoCalls = 0 :=
  ((c7_two_step_gating "step one prompt" "step two prompt" "data:p" "data:s"
      (Except.error "step one rejected") (Except.ok { imageUrl := some "u" })
      (fun s _ => Except.ok s) (fun s _ => Except.ok s) id).1
    (Or.inl ⟨"step one rejected", rfl⟩)).1

/-- A done operation stops the poll loop at once, with no further wait,
whatever the remaining snapshot stream holds. -/
theorem pollLoop_done {op : VideoOperation} (h : op.done = true)
    (polls : List VideoOperation) : pollLoop op polls = some (op, 0) := by
  cases polls <;> simp [pollLoop, h]

/-- Claim C8: a job reporting done false twice and then done true (with a
clean final status carrying a download URI) performs exactly two waits
of the fixed interval before the download reference is returned; and a
job whose completed operation carries an error raises that error — the
run result is the error message regardless of any download link, so
the link-extraction step is never reached. -/
theorem c8_video_poll (apiKey : String) :
    (∀ (init p1 p2 : VideoOperation) (rest : List VideoOperation) (u : String),
        init.done = false → p1.done = false → p2.done = true →
        p2.error = none → p2.uri = some u →
        generateVideo apiKey init (p1 :: p2 :: rest)
          = some (.ok (u ++ "&key=" ++ apiKey), 2))
  ∧ (∀ (init : VideoOperation) (polls : List VideoOperation)
        (f : VideoOperation) (w : Nat) (errObj : Option String),
        pollLoop init polls = some (f, w) → f.error = some errObj →
        generateVideo apiKey init polls = some (.error (videoErrMsg errObj), w)) := by
  constructor
  · intro init p1 p2 rest u h0 h1 h2 he hu
    have hpoll : pollLoop init (p1 :: p2 :: rest) = some (p2, 2) := by
      simp [pollLoop, h0, h1, pollLoop_done h2]
    simp [generateVideo, hpoll, he, hu]
  · intro init polls f w errObj hp he
    simp [generateVideo, hp, he]

/-- Witness for c8_video_poll on a three-snapshot trace. -/
theorem c8_video_poll_witness :
    generateVideo "KEY" { done := false }
        [{ done := false }, { done := true, uri := some "http://v" }]
      = some (.ok ("http://v" ++ "&key=" ++ "KEY"), 2) :=
  (c8_video_poll "KEY").1 { done := false } { done := false }
    { done := true, uri := some "http://v" } [] "http://v" rfl rfl rfl rfl rfl

/-- Keys of the looked-up saved entries: exactly the saved keys the
catalog knows, in saved order. -/
theorem map_key_filterMap_get (catalog : List Transformation) :
    ∀ saved : List String,
      (saved.filterMap (transformationMapGet catalog)).map Transformation.key
        = saved.filter fun k => catalog.any fun t => t.key == k := by
  intro saved
  induction saved with
  | nil => rfl
  | cons k ks ih =>
    rw [List.filterMap_cons, List.filter_cons]
    cases hf : transformationMapGet catalog k with
    | none =>
      have hf' : List.find? (fun t => t.key == k) catalog.reverse = none := hf
      have hany : (catalog.any fun t => t.key == k) = false := by
        cases hca : catalog.any fun t => t.key == k
        · rfl
        · exfalso
          obtain ⟨t, ht, hk⟩ := List.any_eq_true.mp hca
          exact (List.find?_eq_none.mp hf' t (List.mem_reverse.mpr ht)) hk
      simp [hany, ih]
    | some t =>
      have hf' : List.find? (fun t => t.key == k) catalog.reverse = some t := hf
      have hk : (t.key == k) = true := by
        have := List.find?_some hf'
        simpa using this
      have ht : t ∈ catalog := List.mem_reverse.mp (List.mem_of_find?_eq_some hf')
      have hany : (catalog.any fun s => s.key == k) = true :=
        List.any_eq_true.mpr ⟨t, ht, hk⟩
      have hkey : t.key = k := eq_of_beq hk
      simp [hany, ih, hkey]

/-- Claim C9: for every persisted key order and catalog, the resolved
display order lists the saved keys known to the catalog in saved order
followed by the catalog entries whose key is missing from the saved
order, in catalog order; in particular saved [B, A] against catalog
[A, B, C] resolves to [B, A, C]. -/
theorem c9_resolve_order :
    (∀ (saved : List String) (catalog : List Transformation),
        (resolveTransformationOrder saved catalog).map Transformation.key
          = (saved.filter fun k => catalog.any fun t => t.key == k)
            ++ ((catalog.filter fun t => !(saved.contains t.key)).map Transformation.key))
  ∧ (resolveTransformationOrder ["B", "A"]
        [{ key := "A" }, { key := "B" }, { key := "C" }]).map Transformation.key
      = ["B", "A", "C"] := by
  constructor
  · intro saved catalog
    simp [resolveTransformationOrder, map_key_filterMap_get]
  · decide

/-- Claim C10: every successful generateVideo run returns the provider
download URI with the literal key query suffix followed by the process
API key appended, embedding the secret key in the URL handed back to
the caller. -/
theorem c10_video_key_suffix (apiKey : String) (init : VideoOperation)
    (polls : List VideoOperation) (f : VideoOperation) (w : Nat) (u : String)
    (hp : pollLoop init polls = some (f, w)) (he : f.error = none)
    (hu : f.uri = some u) :
    generateVideo apiKey init polls = some (.ok (u ++ "&key=" ++ apiKey), w) := by
  simp [generateVideo, hp, he, hu]

/-- Witness for c10_video_key_suffix on an immediately-done job. -/
theorem c10_video_key_suffix_witness :
    generateVideo "SECRET" { done := true, uri := some "https://dl/video.mp4?alt=media" } []
      = some (.ok ("https://dl/video.mp4?alt=media" ++ "&key=" ++ "SECRET"), 0) :=
  c10_video_key_suffix "SECRET"
    { done := true, uri := some "https://dl/video.mp4?alt=media" } []
    { done := true, uri := some "https://dl/video.mp4?alt=media" } 0
    "https://dl/video.mp4?alt=media" rfl rfl rfl

end KStudio
